import Mathlib

/-!
Shallow embedding of the machine-scoped realtime client of happy-cli
(src/src/api/apiMachine.ts): the versioned state synchronizer for the
machine metadata and daemon state blobs, the consolidated RPC dispatcher,
the update ingest path and the keep-alive heartbeat, together with
theorems about their behaviour.

Encrypted metadata and daemon-state blobs are opaque to the client (it
only JSON round-trips them), so they are embedded as values of a type
parameter V; the JSON wire encoding itself is not modelled.
-/

namespace HappyMachine

/-- Local in-memory machine record (the this.machine field of
ApiMachineClient, built by api.ts getMachine / createMachineOrGetExistingAsIs):
identity, the metadata blob with its version, the daemon-state blob with its
version, and the informational fields. An absent blob is none. -/
structure Machine (V : Type) where
  id : String
  metadata : Option V
  metadataVersion : Nat
  daemonState : Option V
  daemonStateVersion : Nat
  active : Bool
  activeAt : Nat
  createdAt : Nat
  updatedAt : Nat
deriving DecidableEq

/-- Acknowledgement union of the machine-update-metadata and
machine-update-state exchanges (apiMachine.ts lines 30-60): result error,
result version-mismatch with the server pair, or result success with the
committed pair. -/
inductive Answer (V : Type) where
  | error : Answer V
  | versionMismatch (version : Nat) (value : V) : Answer V
  | success (version : Nat) (value : V) : Answer V
deriving DecidableEq

/-- Outcome of one attempt of a backoff body: the async closure either
returned normally (the surrounding backoff resolves and the update call
completes) or threw the given message, which makes the external backoff
executor re-invoke the whole attempt. -/
inductive StepOutcome where
  | completed : StepOutcome
  | retry (msg : String) : StepOutcome
deriving DecidableEq

/-- True when the attempt threw, i.e. signalled a retryable failure. -/
def StepOutcome.isRetry : StepOutcome → Bool
  | .completed => false
  | .retry _ => true

/-- One attempt of the body of updateMachineMetadata (apiMachine.ts lines
105-127), after the machine-update-metadata exchange answered: on success
adopt the returned value and version; on version-mismatch adopt the server
pair when it is strictly newer and then throw (which triggers the retry);
an error answer matches neither branch, so the attempt falls through and
completes with no local change. -/
def updateMachineMetadataStep {V : Type} (m : Machine V) (answer : Answer V) :
    Machine V × StepOutcome :=
  match answer with
  | .success v val =>
      ({ m with metadata := some val, metadataVersion := v }, .completed)
  | .versionMismatch v val =>
      if v > m.metadataVersion then
        ({ m with metadataVersion := v, metadata := some val },
         .retry "Metadata version mismatch")
      else
        (m, .retry "Metadata version mismatch")
  | .error => (m, .completed)

/-- One attempt of the body of updateDaemonState (apiMachine.ts lines
133-155), structurally identical to the metadata attempt but acting on the
daemon-state pair. -/
def updateDaemonStateStep {V : Type} (m : Machine V) (answer : Answer V) :
    Machine V × StepOutcome :=
  match answer with
  | .success v val =>
      ({ m with daemonState := some val, daemonStateVersion := v }, .completed)
  | .versionMismatch v val =>
      if v > m.daemonStateVersion then
        ({ m with daemonStateVersion := v, daemonState := some val },
         .retry "Daemon state version mismatch")
      else
        (m, .retry "Daemon state version mismatch")
  | .error => (m, .completed)

/-- Server-side view of one versioned field, used to close the optimistic
concurrency loop: the authoritative value and its version. This models the
external commit contract of the realtime server (spec section 4.1), not
repository code. -/
structure SyncServer (V : Type) where
  value : V
  version : Nat
deriving DecidableEq

/-- Compare-and-swap commit of the realtime server: when the expected
version matches, the value is adopted under version + 1 and echoed back as
a success answer; otherwise the server answers version-mismatch carrying
its current pair and stays unchanged. -/
def serverCommit {V : Type} (s : SyncServer V) (value : V) (expectedVersion : Nat) :
    SyncServer V × Answer V :=
  if expectedVersion = s.version then
    (⟨value, s.version + 1⟩, Answer.success (s.version + 1) value)
  else
    (s, Answer.versionMismatch s.version s.value)

/-- The backoff-driven retry loop of updateMachineMetadata run against a
compare-and-swap server: each attempt applies the transform to the current
local metadata, commits with the current local version, applies the
attempt step, and re-invokes on a retry outcome. Fuel bounds the number of
attempts; none means the fuel ran out. -/
def syncMetadataLoop {V : Type} (transform : Option V → V) :
    Machine V → SyncServer V → Nat → Option (Machine V × SyncServer V)
  | _, _, 0 => none
  | m, s, fuel + 1 =>
      let updated := transform m.metadata
      let step1 := serverCommit s updated m.metadataVersion
      match updateMachineMetadataStep m step1.2 with
      | (m2, StepOutcome.completed) => some (m2, step1.1)
      | (m2, StepOutcome.retry _) => syncMetadataLoop transform m2 step1.1 fuel

/-- The backoff-driven retry loop of updateDaemonState run against a
compare-and-swap server, symmetric to the metadata loop. -/
def syncDaemonStateLoop {V : Type} (transform : Option V → V) :
    Machine V → SyncServer V → Nat → Option (Machine V × SyncServer V)
  | _, _, 0 => none
  | m, s, fuel + 1 =>
      let updated := transform m.daemonState
      let step1 := serverCommit s updated m.daemonStateVersion
      match updateDaemonStateStep m step1.2 with
      | (m2, StepOutcome.completed) => some (m2, step1.1)
      | (m2, StepOutcome.retry _) => syncDaemonStateLoop transform m2 step1.1 fuel

/-- Concrete machine record used by closed witnesses and counterexamples. -/
def mEx : Machine String :=
  { id := "machine-1", metadata := some "orig", metadataVersion := 3,
    daemonState := some "st", daemonStateVersion := 2,
    active := true, activeAt := 0, createdAt := 0, updatedAt := 0 }

/-- Concrete transform used by closed witnesses: it appends to the blob it
is applied to, so the result records which baseline it saw. -/
def exTransform : Option String → String
  | some v => String.append v "+edit"
  | none => "fresh"

/-- Claim C1: on a version-mismatch answer whose reported version is
strictly greater than the current local version, both update operations
adopt the server pair as the new local baseline and then signal a
retryable failure; when the reported version is not greater the baseline
is unchanged and a retryable failure is still signalled; consequently,
running the retry loop from a stale local version against a
compare-and-swap server applies the transform to the adopted server value,
not to the original stale one, and completes at the server version plus
one. -/
theorem versionMismatch_adopts_newer_and_retries {V : Type} (m : Machine V)
    (v : Nat) (val : V) :
    (v > m.metadataVersion →
        updateMachineMetadataStep m (Answer.versionMismatch v val) =
          ({ m with metadataVersion := v, metadata := some val },
           StepOutcome.retry "Metadata version mismatch")) ∧
    (¬ v > m.metadataVersion →
        updateMachineMetadataStep m (Answer.versionMismatch v val) =
          (m, StepOutcome.retry "Metadata version mismatch")) ∧
    (v > m.daemonStateVersion →
        updateDaemonStateStep m (Answer.versionMismatch v val) =
          ({ m with daemonStateVersion := v, daemonState := some val },
           StepOutcome.retry "Daemon state version mismatch")) ∧
    (¬ v > m.daemonStateVersion →
        updateDaemonStateStep m (Answer.versionMismatch v val) =
          (m, StepOutcome.retry "Daemon state version mismatch")) ∧
    (∀ (s : SyncServer V) (transform : Option V → V) (k : Nat),
        m.metadataVersion < s.version →
        syncMetadataLoop transform m s (k + 2) =
          some ({ m with metadataVersion := s.version + 1,
                         metadata := some (transform (some s.value)) },
                ⟨transform (some s.value), s.version + 1⟩)) ∧
    (∀ (s : SyncServer V) (transform : Option V → V) (k : Nat),
        m.daemonStateVersion < s.version →
        syncDaemonStateLoop transform m s (k + 2) =
          some ({ m with daemonStateVersion := s.version + 1,
                         daemonState := some (transform (some s.value)) },
                ⟨transform (some s.value), s.version + 1⟩)) := by
  refine ⟨?_, ?_, ?_, ?_, ?_, ?_⟩
  · intro h; simp [updateMachineMetadataStep, h]
  · intro h; simp [updateMachineMetadataStep, h]
  · intro h; simp [updateDaemonStateStep, h]
  · intro h; simp [updateDaemonStateStep, h]
  · intro s transform k h
    have hne : m.metadataVersion ≠ s.version := Nat.ne_of_lt h
    simp [syncMetadataLoop, serverCommit, updateMachineMetadataStep, hne, h]
  · intro s transform k h
    have hne : m.daemonStateVersion ≠ s.version := Nat.ne_of_lt h
    simp [syncDaemonStateLoop, serverCommit, updateDaemonStateStep, hne, h]

/-- Claim C1 witness: a concrete client at metadata version 3 against a
server holding value X at version 5 re-baselines to the server pair and
completes at version 6 with the transform applied to X. -/
theorem versionMismatch_adopts_newer_and_retries_witness :
    mEx.metadataVersion < 5 ∧
    syncMetadataLoop exTransform mEx ⟨"X", 5⟩ (0 + 2) =
      some ({ mEx with metadataVersion := 5 + 1,
                       metadata := some (exTransform (some "X")) },
            ⟨exTransform (some "X"), 5 + 1⟩) :=
  ⟨by decide,
   (versionMismatch_adopts_newer_and_retries (V := String) mEx 5 "X").2.2.2.2.1
     ⟨"X", 5⟩ exTransform 0 (by decide)⟩

/-- Claim C2 counterexample: on the error answer both update attempts fall
through the success and version-mismatch branches, so the attempt
completes normally with no retryable failure signalled, contradicting the
claim that an Error acknowledgement signals a retryable failure and never
completes successfully. -/
theorem error_answer_not_retried :
    updateMachineMetadataStep mEx Answer.error = (mEx, StepOutcome.completed) ∧
    (updateMachineMetadataStep mEx Answer.error).2.isRetry = false ∧
    updateDaemonStateStep mEx Answer.error = (mEx, StepOutcome.completed) ∧
    (updateDaemonStateStep mEx Answer.error).2.isRetry = false :=
  ⟨rfl, rfl, rfl, rfl⟩

/-- Claim C2 amended: on an Error answer the local value and version are
left unchanged, but no retryable failure is signalled: the update
operation completes normally, silently treating the Error acknowledgement
as done. -/
theorem error_answer_completes_unchanged {V : Type} (m : Machine V) :
    updateMachineMetadataStep m Answer.error = (m, StepOutcome.completed) ∧
    updateDaemonStateStep m Answer.error = (m, StepOutcome.completed) :=
  ⟨rfl, rfl⟩

/-- One versioned sub-update of an update-machine envelope: the pushed
value together with the version it was received with. -/
structure VersionedValue (V : Type) where
  value : V
  version : Nat
deriving DecidableEq

/-- Body of an inbound update envelope (the data.body of the update
event): either an update-machine body with its target machineId and the
optional metadata and daemonState sub-updates, or a body with any other
type tag, which the handler only logs. -/
inductive UpdateBody (V : Type) where
  | updateMachine (machineId : String) (metadata : Option (VersionedValue V))
      (daemonState : Option (VersionedValue V)) : UpdateBody V
  | other (t : String) : UpdateBody V
deriving DecidableEq

/-- The update event handler (apiMachine.ts lines 295-315): an
update-machine body addressed to the local machine overwrites the metadata
pair when a metadata sub-update is present and, independently, the
daemon-state pair when a daemonState sub-update is present; every other
envelope is only logged and mutates nothing. -/
def applyUpdate {V : Type} (m : Machine V) (body : UpdateBody V) : Machine V :=
  match body with
  | .updateMachine mid md ds =>
      if mid = m.id then
        let m1 :=
          match md with
          | some u => { m with metadata := some u.value, metadataVersion := u.version }
          | none => m
        match ds with
        | some u => { m1 with daemonState := some u.value, daemonStateVersion := u.version }
        | none => m1
      else m
  | .other _ => m

/-- A single mutation of the local Machine object, covering every mutation
path of the source: a synchronizer attempt on the metadata field, a
synchronizer attempt on the daemon-state field, or an ingested update
envelope. -/
inductive MOp (V : Type) where
  | metaAnswer (a : Answer V) : MOp V
  | stateAnswer (a : Answer V) : MOp V
  | ingest (body : UpdateBody V) : MOp V

/-- Apply one mutation to the local machine record. -/
def applyOp {V : Type} (m : Machine V) (op : MOp V) : Machine V :=
  match op with
  | .metaAnswer a => (updateMachineMetadataStep m a).1
  | .stateAnswer a => (updateDaemonStateStep m a).1
  | .ingest body => applyUpdate m body

/-- Apply a sequence of mutations from left to right. -/
def runOps {V : Type} (m : Machine V) (ops : List (MOp V)) : Machine V :=
  ops.foldl applyOp m

/-- A mutation input is well behaved at a given local state when every
version the server reports in it is at least the corresponding current
local version; the optimistic-concurrency protocol provides this for
success answers (the committed version exceeds the expected one) and the
spec assumes the server never pushes a stale sub-update. Version-mismatch
and error answers need no condition. -/
def wellBehaved {V : Type} (m : Machine V) : MOp V → Prop
  | .metaAnswer (.success v _) => m.metadataVersion ≤ v
  | .stateAnswer (.success v _) => m.daemonStateVersion ≤ v
  | .ingest (.updateMachine mid md ds) =>
      mid = m.id →
        (∀ u, md = some u → m.metadataVersion ≤ u.version) ∧
        (∀ u, ds = some u → m.daemonStateVersion ≤ u.version)
  | _ => True

/-- A sequence of mutations is well behaved when each element is well
behaved at the state it is applied to. -/
def wbRun {V : Type} (m : Machine V) : List (MOp V) → Prop
  | [] => True
  | op :: rest => wellBehaved m op ∧ wbRun (applyOp m op) rest

/-- The metadata value paired with its version. -/
def metaPair {V : Type} (m : Machine V) : Option V × Nat :=
  (m.metadata, m.metadataVersion)

/-- The daemon-state value paired with its version. -/
def statePair {V : Type} (m : Machine V) : Option V × Nat :=
  (m.daemonState, m.daemonStateVersion)

/-- The metadata pair a mutation input carries, when it carries one. -/
def opMetaPayload {V : Type} : MOp V → Option (Option V × Nat)
  | .metaAnswer (.success v val) => some (some val, v)
  | .metaAnswer (.versionMismatch v val) => some (some val, v)
  | .ingest (.updateMachine _ (some u) _) => some (some u.value, u.version)
  | _ => none

/-- The daemon-state pair a mutation input carries, when it carries one. -/
def opStatePayload {V : Type} : MOp V → Option (Option V × Nat)
  | .stateAnswer (.success v val) => some (some val, v)
  | .stateAnswer (.versionMismatch v val) => some (some val, v)
  | .ingest (.updateMachine _ _ (some u)) => some (some u.value, u.version)
  | _ => none

/-- One well-behaved mutation never lowers either version. -/
theorem applyOp_version_mono {V : Type} (m : Machine V) (op : MOp V)
    (h : wellBehaved m op) :
    m.metadataVersion ≤ (applyOp m op).metadataVersion ∧
    m.daemonStateVersion ≤ (applyOp m op).daemonStateVersion := by
  match op with
  | .metaAnswer .error => simp [applyOp, updateMachineMetadataStep]
  | .metaAnswer (.success v val) =>
      simp only [wellBehaved] at h
      simp [applyOp, updateMachineMetadataStep, h]
  | .metaAnswer (.versionMismatch v val) =>
      by_cases hv : v > m.metadataVersion <;>
        simp [applyOp, updateMachineMetadataStep, hv, Nat.le_of_lt]
  | .stateAnswer .error => simp [applyOp, updateDaemonStateStep]
  | .stateAnswer (.success v val) =>
      simp only [wellBehaved] at h
      simp [applyOp, updateDaemonStateStep, h]
  | .stateAnswer (.versionMismatch v val) =>
      by_cases hv : v > m.daemonStateVersion <;>
        simp [applyOp, updateDaemonStateStep, hv, Nat.le_of_lt]
  | .ingest (.other t) => simp [applyOp, applyUpdate]
  | .ingest (.updateMachine mid md ds) =>
      by_cases hid : mid = m.id
      · simp only [wellBehaved] at h
        obtain ⟨hmd, hds⟩ := h hid
        match md, ds with
        | none, none => simp [applyOp, applyUpdate, hid]
        | none, some u => simp [applyOp, applyUpdate, hid, hds u rfl]
        | some u, none => simp [applyOp, applyUpdate, hid, hmd u rfl]
        | some u, some w =>
            simp [applyOp, applyUpdate, hid, hmd u rfl, hds w rfl]
      · simp [applyOp, applyUpdate, hid]

/-- Well-behaved sequences never lower either version. -/
theorem runOps_version_mono {V : Type} (ops : List (MOp V)) (m : Machine V)
    (h : wbRun m ops) :
    m.metadataVersion ≤ (runOps m ops).metadataVersion ∧
    m.daemonStateVersion ≤ (runOps m ops).daemonStateVersion := by
  induction ops generalizing m with
  | nil => simp [runOps]
  | cons op rest ih =>
      obtain ⟨h1, h2⟩ := h
      have hstep := applyOp_version_mono m op h1
      have hrest := ih (applyOp m op) h2
      have hruns : runOps m (op :: rest) = runOps (applyOp m op) rest := rfl
      rw [hruns]
      exact ⟨Nat.le_trans hstep.1 hrest.1, Nat.le_trans hstep.2 hrest.2⟩

/-- Every mutation writes each value only together with the version it was
received with: after any single mutation, each pair is either the old pair
unchanged or exactly the pair the mutation input carried. -/
theorem applyOp_pairs_atomic {V : Type} (m : Machine V) (op : MOp V) :
    (metaPair (applyOp m op) = metaPair m ∨
     some (metaPair (applyOp m op)) = opMetaPayload op) ∧
    (statePair (applyOp m op) = statePair m ∨
     some (statePair (applyOp m op)) = opStatePayload op) := by
  match op with
  | .metaAnswer .error =>
      simp [applyOp, updateMachineMetadataStep, metaPair, statePair]
  | .metaAnswer (.success v val) =>
      simp [applyOp, updateMachineMetadataStep, metaPair, statePair, opMetaPayload]
  | .metaAnswer (.versionMismatch v val) =>
      by_cases hv : v > m.metadataVersion <;>
        simp [applyOp, updateMachineMetadataStep, hv, metaPair, statePair,
          opMetaPayload]
  | .stateAnswer .error =>
      simp [applyOp, updateDaemonStateStep, metaPair, statePair]
  | .stateAnswer (.success v val) =>
      simp [applyOp, updateDaemonStateStep, metaPair, statePair, opStatePayload]
  | .stateAnswer (.versionMismatch v val) =>
      by_cases hv : v > m.daemonStateVersion <;>
        simp [applyOp, updateDaemonStateStep, hv, metaPair, statePair,
          opStatePayload]
  | .ingest (.other t) => simp [applyOp, applyUpdate, metaPair, statePair]
  | .ingest (.updateMachine mid md ds) =>
      by_cases hid : mid = m.id
      · match md, ds with
        | none, none =>
            simp [applyOp, applyUpdate, hid, metaPair, statePair]
        | none, some u =>
            simp [applyOp, applyUpdate, hid, metaPair, statePair, opStatePayload]
        | some u, none =>
            simp [applyOp, applyUpdate, hid, metaPair, statePair, opMetaPayload]
        | some u, some w =>
            simp [applyOp, applyUpdate, hid, metaPair, statePair, opMetaPayload,
              opStatePayload]
      · simp [applyOp, applyUpdate, hid, metaPair, statePair]

/-- Claim C4 counterexample: an ingested update-machine envelope addressed
to the local machine may carry a metadata version lower than the current
one, and the update handler overwrites the local version with it
unconditionally, so the locally observed version decreases along this
mutation path, contradicting the claim that the versions are
non-decreasing over any sequence of operations. -/
theorem ingest_can_lower_version :
    (applyOp mEx
        (MOp.ingest (UpdateBody.updateMachine "machine-1" (some ⟨"b", 0⟩) none))).metadataVersion
      < mEx.metadataVersion := by decide

/-- Claim C4 amended: each value is only ever written atomically together
with the version it was received with, on every mutation path; the
versions are non-decreasing over any sequence of mutations provided every
server-reported version in it is at least the current local one (which the
optimistic-concurrency protocol provides for success answers and the spec
assumes for pushed sub-updates); the version-mismatch re-baselining path
is non-decreasing unconditionally, but an ill-behaved success answer or
pushed sub-update can lower a version. -/
theorem version_monotone_and_pairs_atomic {V : Type} :
    (∀ (m : Machine V) (ops : List (MOp V)), wbRun m ops →
        m.metadataVersion ≤ (runOps m ops).metadataVersion ∧
        m.daemonStateVersion ≤ (runOps m ops).daemonStateVersion) ∧
    (∀ (m : Machine V) (op : MOp V),
        (metaPair (applyOp m op) = metaPair m ∨
         some (metaPair (applyOp m op)) = opMetaPayload op) ∧
        (statePair (applyOp m op) = statePair m ∨
         some (statePair (applyOp m op)) = opStatePayload op)) :=
  ⟨fun m ops h => runOps_version_mono ops m h,
   fun m op => applyOp_pairs_atomic m op⟩

/-- Concrete well-behaved mutation sequence for the claim C4 witness. -/
def opsEx : List (MOp String) :=
  [MOp.metaAnswer (Answer.success 4 "a"),
   MOp.ingest (UpdateBody.updateMachine "machine-1" (some ⟨"b", 7⟩) (some ⟨"c", 8⟩)),
   MOp.stateAnswer (Answer.versionMismatch 9 "d")]

/-- Claim C4 witness: a concrete well-behaved sequence of all three
mutation kinds keeps both versions non-decreasing. -/
theorem version_monotone_and_pairs_atomic_witness :
    wbRun mEx opsEx ∧
    mEx.metadataVersion ≤ (runOps mEx opsEx).metadataVersion ∧
    mEx.daemonStateVersion ≤ (runOps mEx opsEx).daemonStateVersion :=
  ⟨by simp [wbRun, wellBehaved, opsEx, mEx, applyOp, updateMachineMetadataStep,
      applyUpdate, updateDaemonStateStep],
   (version_monotone_and_pairs_atomic (V := String)).1 mEx opsEx
     (by simp [wbRun, wellBehaved, opsEx, mEx, applyOp, updateMachineMetadataStep,
        applyUpdate, updateDaemonStateStep])⟩

/-- Claim C8: an update envelope with a non-matching machineId or with an
unknown type tag mutates no field of the local machine; a matching
update-machine envelope rewrites the metadata pair exactly when it carries
a metadata sub-update and, independently, the daemon-state pair exactly
when it carries a daemonState sub-update, leaving every other field
untouched, and an envelope carrying neither sub-update mutates nothing. -/
theorem update_ingest_filtering_and_frame {V : Type} (m : Machine V) :
    (∀ (mid : String) (md ds : Option (VersionedValue V)),
        mid ≠ m.id → applyUpdate m (UpdateBody.updateMachine mid md ds) = m) ∧
    (∀ t, applyUpdate m (UpdateBody.other t) = m) ∧
    (∀ md ds, applyUpdate m (UpdateBody.updateMachine m.id md ds) =
        { m with
          metadata := match md with | some u => some u.value | none => m.metadata,
          metadataVersion := match md with | some u => u.version | none => m.metadataVersion,
          daemonState := match ds with | some u => some u.value | none => m.daemonState,
          daemonStateVersion := match ds with | some u => u.version | none => m.daemonStateVersion }) := by
  refine ⟨?_, ?_, ?_⟩
  · intro mid md ds h
    simp [applyUpdate, h]
  · intro t
    simp [applyUpdate]
  · intro md ds
    cases md <;> cases ds <;> simp [applyUpdate]

/-- Claim C8 witness: a concrete envelope for a different machine leaves a
concrete local machine record untouched, and a concrete matching envelope
carrying only a metadata sub-update rewrites only the metadata pair. -/
theorem update_ingest_filtering_and_frame_witness :
    ("other-machine" ≠ mEx.id ∧
      applyUpdate mEx (UpdateBody.updateMachine "other-machine" (some ⟨"b", 9⟩) none) = mEx) ∧
    applyUpdate mEx (UpdateBody.updateMachine mEx.id (some ⟨"b", 9⟩) none) =
      { mEx with metadata := some "b", metadataVersion := 9 } :=
  ⟨⟨by decide,
    (update_ingest_filtering_and_frame mEx).1 "other-machine" (some ⟨"b", 9⟩) none
      (by decide)⟩,
   (update_ingest_filtering_and_frame mEx).2.2 (some ⟨"b", 9⟩) none⟩

/-- Fields the RPC branches read from the parsed params object, after the
paramObj-or-empty-object fallback: an optional directory and an optional
sessionId. A falsy field (absent, null or empty) is none. -/
structure ParamFields where
  directory : Option String
  sessionId : Option String
deriving DecidableEq

/-- Tracked session handle returned by the external spawnSession
collaborator: the resolved session identifier when the webhook already
reported one, the process id, an error message when the spawn failed, and
an informational message. A falsy field is none. -/
structure TrackedSession where
  happySessionId : Option String
  pid : Nat
  error : Option String
  message : Option String
deriving DecidableEq

/-- The three externally supplied RPC handlers, each optional because it
is bound after construction: the spawn handler returns the handle or null
and may throw, the stop handler returns a boolean and may throw, and the
shutdown handler is only invoked for its effect so just its binding is
recorded. A thrown exception is the error message it carries. -/
structure Handlers where
  spawnSession : Option (String → Option String → Except String (Option TrackedSession))
  stopSession : Option (String → Except String Bool)
  requestShutdown : Option Unit

/-- The serialized payloads the dispatcher can hand to the response
callback, one constructor per distinct JSON.stringify shape in the source:
the spawn success payload of sessionId and message, the stop-session
confirmation, the stop-daemon acknowledgement, and the error object
wrapping a message. -/
inductive Wire where
  | spawnOk (sessionId : String) (message : Option String) : Wire
  | stopOk : Wire
  | stopDaemonAck : Wire
  | err (message : String) : Wire
deriving DecidableEq

/-- Observable actions of the rpc-request handler, in program order: a
response callback invocation, an invocation of the spawn or stop handler,
the setTimeout scheduling of the shutdown closure with its delay, and the
later shutdown handler invocation inside that closure. -/
inductive Event where
  | respond (w : Wire) : Event
  | spawnInvoked (directory : String) (sessionId : Option String) : Event
  | stopInvoked (sessionId : String) : Event
  | schedule (delayMs : Nat) : Event
  | invokeShutdown : Event
deriving DecidableEq

/-- True on response callback invocations. -/
def Event.isRespond : Event → Bool
  | .respond _ => true
  | _ => false

/-- The machine-scoped spawn method name. -/
def spawnMethod (mid : String) : String :=
  mid ++ ":spawn-happy-session"

/-- The machine-scoped stop-session method name. -/
def stopMethod (mid : String) : String :=
  mid ++ ":stop-session"

/-- The machine-scoped stop-daemon method name. -/
def stopDaemonMethod (mid : String) : String :=
  mid ++ ":stop-daemon"

/-- Delay in milliseconds of the setTimeout deferring the shutdown
handler in the stop-daemon branch. -/
def stopDaemonDelayMs : Nat := 100

/-- Error message of the spawned-but-not-identified branch, which embeds
the process id of the spawned session. -/
def noSessionIdMsg (pid : Nat) : String :=
  "Session spawned (PID " ++ toString pid ++
    ") but no sessionId received from webhook. The session process may still be initializing."

/-- Body of the consolidated rpc-request handler (apiMachine.ts lines
202-292) up to the closing of the try block: given the machine id, the
bound handlers, the JSON.parse behaviour on the params string, and the
inbound method and params, it yields the events the try block emits in
order, paired with the message of the exception it threw, if it threw.
Branch order, parse placement and handler-presence checks follow the
source: the spawn branch checks the handler before parsing and the
directory after, the stop branch parses before checking the handler, the
stop-daemon branch responds and schedules the deferred shutdown, and any
other method throws unknown-method. -/
def rpcBody (mid : String) (h : Handlers)
    (parse : String → Except String ParamFields) (method params : String) :
    List Event × Option String :=
  if method = spawnMethod mid then
    match h.spawnSession with
    | none => ([], some "Spawn session handler not set")
    | some f =>
        match parse params with
        | Except.error e => ([], some e)
        | Except.ok p =>
            match p.directory with
            | none => ([], some "Directory is required")
            | some dir =>
                match f dir p.sessionId with
                | Except.error e => ([Event.spawnInvoked dir p.sessionId], some e)
                | Except.ok none =>
                    ([Event.spawnInvoked dir p.sessionId], some "Failed to spawn session")
                | Except.ok (some s) =>
                    match s.error with
                    | some e => ([Event.spawnInvoked dir p.sessionId], some e)
                    | none =>
                        match s.happySessionId with
                        | none =>
                            ([Event.spawnInvoked dir p.sessionId],
                             some (noSessionIdMsg s.pid))
                        | some sid =>
                            ([Event.spawnInvoked dir p.sessionId,
                              Event.respond (Wire.spawnOk sid s.message)], none)
  else if method = stopMethod mid then
    match parse params with
    | Except.error e => ([], some e)
    | Except.ok p =>
        match h.stopSession with
        | none => ([], some "Stop session handler not set")
        | some f =>
            match p.sessionId with
            | none => ([], some "Session ID is required")
            | some sid =>
                match f sid with
                | Except.error e => ([Event.stopInvoked sid], some e)
                | Except.ok false =>
                    ([Event.stopInvoked sid], some "Session not found or failed to stop")
                | Except.ok true =>
                    ([Event.stopInvoked sid, Event.respond Wire.stopOk], none)
  else if method = stopDaemonMethod mid then
    ([Event.respond Wire.stopDaemonAck, Event.schedule stopDaemonDelayMs], none)
  else
    ([], some (String.append "Unknown RPC method: " method))

/-- The whole rpc-request handler: the events of the try block, followed
by the single error response the catch block emits when the try block
threw. -/
def dispatchTrace (mid : String) (h : Handlers)
    (parse : String → Except String ParamFields) (method params : String) :
    List Event :=
  match rpcBody mid h parse method params with
  | (evs, none) => evs
  | (evs, some e) => evs ++ [Event.respond (Wire.err e)]

/-- Events of the deferred setTimeout closure of the stop-daemon branch
when it fires after its delay: it invokes the shutdown handler when one is
bound and silently does nothing otherwise. -/
def fireScheduled (h : Handlers) : List Event :=
  match h.requestShutdown with
  | some _ => [Event.invokeShutdown]
  | none => []

/-- Full observable timeline of a stop-daemon request: the dispatch
events, then, after the scheduled delay, the events of the deferred
closure. -/
def stopDaemonTimeline (mid : String) (h : Handlers)
    (parse : String → Except String ParamFields) (params : String) :
    List Event :=
  dispatchTrace mid h parse (stopDaemonMethod mid) params ++ fireScheduled h

/-- Number of response callback invocations in a list of events. -/
def respondCount : List Event → Nat
  | [] => 0
  | e :: rest => (if e.isRespond then 1 else 0) + respondCount rest

/-- Respond counts add over concatenation. -/
theorem respondCount_append (a b : List Event) :
    respondCount (a ++ b) = respondCount a + respondCount b := by
  induction a with
  | nil => simp [respondCount]
  | cons e rest ih => simp [respondCount, ih]; omega

/-- Shape of the try block output: when it returns normally it has emitted
exactly one response, which is not an error object; when it throws it has
emitted no response at all. -/
theorem rpcBody_cases (mid : String) (h : Handlers)
    (parse : String → Except String ParamFields) (method params : String) :
    ((rpcBody mid h parse method params).2 = none →
        respondCount (rpcBody mid h parse method params).1 = 1 ∧
        ∀ e, Event.respond (Wire.err e) ∉ (rpcBody mid h parse method params).1) ∧
    (∀ e, (rpcBody mid h parse method params).2 = some e →
        respondCount (rpcBody mid h parse method params).1 = 0) := by
  unfold rpcBody
  repeat' split
  all_goals simp [respondCount, Event.isRespond]

/-- Claim C3: for every inbound rpc-request, whatever the method name, the
parse behaviour of the params string, the handler bindings and the handler
outcomes (including thrown ones), the dispatcher invokes the response
callback exactly once; when the try block threw, the single response is
the serialized error object carrying the thrown message, and when it
completed, the single response is a success payload and no error object is
ever sent. -/
theorem dispatch_exactly_one_response (mid : String) (h : Handlers)
    (parse : String → Except String ParamFields) (method params : String) :
    respondCount (dispatchTrace mid h parse method params) = 1 ∧
    (∀ e, (rpcBody mid h parse method params).2 = some e →
        dispatchTrace mid h parse method params =
          (rpcBody mid h parse method params).1 ++ [Event.respond (Wire.err e)]) ∧
    ((rpcBody mid h parse method params).2 = none →
        ∀ e, Event.respond (Wire.err e) ∉ dispatchTrace mid h parse method params) := by
  obtain ⟨hok, hthrow⟩ := rpcBody_cases mid h parse method params
  rcases hb : rpcBody mid h parse method params with ⟨evs, th⟩
  rw [hb] at hok hthrow
  match th with
  | none =>
      refine ⟨?_, ?_, ?_⟩
      · simp only [dispatchTrace, hb]
        exact (hok rfl).1
      · intro e he
        simp at he
      · intro _ e
        simp only [dispatchTrace, hb]
        exact (hok rfl).2 e
  | some msg =>
      refine ⟨?_, ?_, ?_⟩
      · simp only [dispatchTrace, hb]
        rw [respondCount_append, hthrow msg rfl]
        simp [respondCount, Event.isRespond]
      · intro e he
        simp only [dispatchTrace, hb]
        simp at he
        rw [he]
      · intro hnone
        simp at hnone


/-- Appending distinct suffixes to one string yields distinct strings, so
the three machine-scoped method names never collide for any machine id. -/
theorem append_right_ne (s : String) {a b : String} (hab : a ≠ b) :
    s ++ a ≠ s ++ b := by
  intro hcontra
  apply hab
  have hd := congrArg String.data hcontra
  simp [String.data_append] at hd
  exact String.ext hd

/-- Any prefix of a list that contains some element also contains the head
of the list. -/
theorem head_mem_take_of_mem_take {α : Type} (x y : α) (l : List α) (n : Nat)
    (hy : y ∈ (x :: l).take n) : x ∈ (x :: l).take n := by
  cases n with
  | zero => simp at hy
  | succ k => simp [List.take]

/-- Handlers record with nothing bound, as right after construction. -/
def handlersNone : Handlers := ⟨none, none, none⟩

/-- Parse behaviour yielding a directory and no sessionId, as JSON.parse
on a params object holding only a directory field. -/
def parseDirEx : String → Except String ParamFields :=
  fun _ => Except.ok ⟨some "/tmp", none⟩

/-- Parse behaviour throwing, as JSON.parse does on malformed params such
as a lone opening brace. -/
def jsonParseFailureEx : String → Except String ParamFields :=
  fun _ => Except.error "Unexpected end of JSON input"

/-- Spawn handler returning a fully identified session handle. -/
def spawnHandlerEx : String → Option String → Except String (Option TrackedSession) :=
  fun _ _ =>
    Except.ok (some { happySessionId := some "sess-1", pid := 42,
                      error := none, message := some "ok" })

/-- Handlers record with all three handlers bound. -/
def handlersEx : Handlers :=
  ⟨some spawnHandlerEx, some (fun _ => Except.ok true), some ()⟩

/-- Claim C3 witness: a concrete request for an unregistered method gets
exactly one response, the serialized unknown-method error object. -/
theorem dispatch_exactly_one_response_witness :
    respondCount (dispatchTrace "m1" handlersNone parseDirEx "nope" "") = 1 ∧
    dispatchTrace "m1" handlersNone parseDirEx "nope" "" =
      [Event.respond (Wire.err "Unknown RPC method: nope")] := by
  have h := dispatch_exactly_one_response "m1" handlersNone parseDirEx "nope" ""
  exact ⟨h.1, h.2.1 "Unknown RPC method: nope" (by decide)⟩

/-- Claim C5: on a spawn request with the spawn handler bound and the
params parsed, a missing directory is answered with the directory-required
error; otherwise the spawn handler is invoked with the directory and
sessionId, an absent handle is answered with the failed-to-spawn error, a
handle carrying an error field is answered with that error, a handle
without a resolved session identifier is answered with the distinct
spawned-but-not-identified error, and otherwise the response is the
success payload built from the handle; and a request for any method other
than the three registered ones is answered with the unknown-method
error. -/
theorem spawn_dispatch_cases (mid : String) (h : Handlers)
    (parse : String → Except String ParamFields) (params : String)
    (f : String → Option String → Except String (Option TrackedSession))
    (hf : h.spawnSession = some f) (p : ParamFields)
    (hp : parse params = Except.ok p) :
    (p.directory = none →
        dispatchTrace mid h parse (spawnMethod mid) params =
          [Event.respond (Wire.err "Directory is required")]) ∧
    (∀ dir, p.directory = some dir →
        (f dir p.sessionId = Except.ok none →
            dispatchTrace mid h parse (spawnMethod mid) params =
              [Event.spawnInvoked dir p.sessionId,
               Event.respond (Wire.err "Failed to spawn session")]) ∧
        (∀ s e, f dir p.sessionId = Except.ok (some s) → s.error = some e →
            dispatchTrace mid h parse (spawnMethod mid) params =
              [Event.spawnInvoked dir p.sessionId, Event.respond (Wire.err e)]) ∧
        (∀ s, f dir p.sessionId = Except.ok (some s) → s.error = none →
            s.happySessionId = none →
            dispatchTrace mid h parse (spawnMethod mid) params =
              [Event.spawnInvoked dir p.sessionId,
               Event.respond (Wire.err (noSessionIdMsg s.pid))]) ∧
        (∀ s sid, f dir p.sessionId = Except.ok (some s) → s.error = none →
            s.happySessionId = some sid →
            dispatchTrace mid h parse (spawnMethod mid) params =
              [Event.spawnInvoked dir p.sessionId,
               Event.respond (Wire.spawnOk sid s.message)])) ∧
    (∀ method, method ≠ spawnMethod mid → method ≠ stopMethod mid →
        method ≠ stopDaemonMethod mid →
        dispatchTrace mid h parse method params =
          [Event.respond (Wire.err (String.append "Unknown RPC method: " method))]) := by
  refine ⟨?_, ?_, ?_⟩
  · intro hdir
    simp [dispatchTrace, rpcBody, hf, hp, hdir]
  · intro dir hdir
    refine ⟨?_, ?_, ?_, ?_⟩
    · intro hres
      simp [dispatchTrace, rpcBody, hf, hp, hdir, hres]
    · intro s e hres herr
      simp [dispatchTrace, rpcBody, hf, hp, hdir, hres, herr]
    · intro s hres herr hsid
      simp [dispatchTrace, rpcBody, hf, hp, hdir, hres, herr, hsid]
    · intro s sid hres herr hsid
      simp [dispatchTrace, rpcBody, hf, hp, hdir, hres, herr, hsid]
  · intro method h1 h2 h3
    simp [dispatchTrace, rpcBody, h1, h2, h3]

/-- Claim C5 witness: a concrete spawn request with a bound handler that
returns an identified handle is answered with the success payload, after
the handler was invoked with the parsed directory. -/
theorem spawn_dispatch_cases_witness :
    handlersEx.spawnSession = some spawnHandlerEx ∧
    parseDirEx "paramsJson" = Except.ok ⟨some "/tmp", none⟩ ∧
    dispatchTrace "m1" handlersEx parseDirEx (spawnMethod "m1") "paramsJson" =
      [Event.spawnInvoked "/tmp" none,
       Event.respond (Wire.spawnOk "sess-1" (some "ok"))] := by
  refine ⟨rfl, rfl, ?_⟩
  have h := spawn_dispatch_cases "m1" handlersEx parseDirEx "paramsJson"
    spawnHandlerEx rfl ⟨some "/tmp", none⟩ rfl
  exact (h.2.1 "/tmp" rfl).2.2.2
    { happySessionId := some "sess-1", pid := 42, error := none, message := some "ok" }
    "sess-1" rfl rfl rfl

/-- Claim C6: on a stop-daemon request the dispatcher responds with the
acknowledgement and schedules the deferred shutdown closure with a fixed
100 millisecond delay; over the full timeline, every prefix in which the
shutdown handler has been invoked already contains the acknowledgement
response, so the acknowledgement always precedes the shutdown handler. -/
theorem stop_daemon_ack_before_shutdown (mid : String) (h : Handlers)
    (parse : String → Except String ParamFields) (params : String) :
    dispatchTrace mid h parse (stopDaemonMethod mid) params =
      [Event.respond Wire.stopDaemonAck, Event.schedule stopDaemonDelayMs] ∧
    stopDaemonDelayMs = 100 ∧
    (∀ n, Event.invokeShutdown ∈ (stopDaemonTimeline mid h parse params).take n →
        Event.respond Wire.stopDaemonAck ∈
          (stopDaemonTimeline mid h parse params).take n) := by
  have hsp : stopDaemonMethod mid ≠ spawnMethod mid :=
    append_right_ne mid (by decide)
  have hst : stopDaemonMethod mid ≠ stopMethod mid :=
    append_right_ne mid (by decide)
  have h1 : dispatchTrace mid h parse (stopDaemonMethod mid) params =
      [Event.respond Wire.stopDaemonAck, Event.schedule stopDaemonDelayMs] := by
    simp [dispatchTrace, rpcBody, hsp, hst]
  refine ⟨h1, rfl, ?_⟩
  intro n hn
  have h2 : stopDaemonTimeline mid h parse params =
      Event.respond Wire.stopDaemonAck ::
        (Event.schedule stopDaemonDelayMs :: fireScheduled h) := by
    simp [stopDaemonTimeline, h1]
  rw [h2] at hn ⊢
  exact head_mem_take_of_mem_take _ _ _ n hn

/-- Claim C6 witness: on a concrete stop-daemon request with all handlers
bound, a prefix of the timeline containing the shutdown invocation also
contains the earlier acknowledgement. -/
theorem stop_daemon_ack_before_shutdown_witness :
    Event.invokeShutdown ∈
      (stopDaemonTimeline "m1" handlersEx parseDirEx "paramsJson").take 3 ∧
    Event.respond Wire.stopDaemonAck ∈
      (stopDaemonTimeline "m1" handlersEx parseDirEx "paramsJson").take 3 :=
  ⟨by decide,
   (stop_daemon_ack_before_shutdown "m1" handlersEx parseDirEx "paramsJson").2.2 3
     (by decide)⟩

/-- Claim C7 counterexample: a stop-session request arriving while the
stop handler is unbound but whose params string fails to parse is answered
with the parse error, because the source parses the params before checking
the handler binding, contradicting the claim that every such request is
answered with the handler-not-set error. -/
theorem stop_unbound_parse_error_not_handler_error :
    handlersNone.stopSession = none ∧
    dispatchTrace "m1" handlersNone jsonParseFailureEx (stopMethod "m1") "notjson" =
      [Event.respond (Wire.err "Unexpected end of JSON input")] ∧
    Event.respond (Wire.err "Stop session handler not set") ∉
      dispatchTrace "m1" handlersNone jsonParseFailureEx (stopMethod "m1") "notjson" :=
  ⟨rfl, by decide, by decide⟩

/-- Claim C7 amended: a spawn request arriving while the spawn handler is
unbound is always answered with the handler-not-set error, whatever the
params, and no spawn handler is invoked; a stop-session request arriving
while the stop handler is unbound is answered with the handler-not-set
error whenever its params parse, but when the params fail to parse the
parse error is reported instead; in every case that single request gets
exactly one error response and nothing else happens. -/
theorem unbound_handler_error_responses (mid : String) (h : Handlers)
    (parse : String → Except String ParamFields) (params : String) :
    (h.spawnSession = none →
        dispatchTrace mid h parse (spawnMethod mid) params =
          [Event.respond (Wire.err "Spawn session handler not set")] ∧
        ∀ dir sid, Event.spawnInvoked dir sid ∉
          dispatchTrace mid h parse (spawnMethod mid) params) ∧
    (∀ p, h.stopSession = none → parse params = Except.ok p →
        dispatchTrace mid h parse (stopMethod mid) params =
          [Event.respond (Wire.err "Stop session handler not set")]) ∧
    (∀ e, parse params = Except.error e →
        dispatchTrace mid h parse (stopMethod mid) params =
          [Event.respond (Wire.err e)]) := by
  have hsp : stopMethod mid ≠ spawnMethod mid :=
    append_right_ne mid (by decide)
  refine ⟨?_, ?_, ?_⟩
  · intro hf
    constructor
    · simp [dispatchTrace, rpcBody, hf]
    · intro dir sid
      simp [dispatchTrace, rpcBody, hf]
  · intro p hf hp
    simp [dispatchTrace, rpcBody, hsp, hf, hp]
  · intro e hp
    simp [dispatchTrace, rpcBody, hsp, hp]

/-- Claim C7 amended witness: a concrete spawn request with no bound
handler and parseable params is answered with the handler-not-set error
and invokes no spawn handler. -/
theorem unbound_handler_error_responses_witness :
    handlersNone.spawnSession = none ∧
    (dispatchTrace "m1" handlersNone parseDirEx (spawnMethod "m1") "paramsJson" =
        [Event.respond (Wire.err "Spawn session handler not set")] ∧
      ∀ dir sid, Event.spawnInvoked dir sid ∉
        dispatchTrace "m1" handlersNone parseDirEx (spawnMethod "m1") "paramsJson") :=
  ⟨rfl,
   (unbound_handler_error_responses "m1" handlersNone parseDirEx "paramsJson").1 rfl⟩

/-- Claim C10: a stop-daemon request arriving while the shutdown handler
is unbound is still answered with the success acknowledgement and the
deferred closure is still scheduled; when the closure fires the missing
handler is silently skipped, so the whole timeline carries no error
response and no shutdown invocation, and the unbound handler is never
reported to the caller. -/
theorem stop_daemon_unbound_silent (mid : String) (h : Handlers)
    (parse : String → Except String ParamFields) (params : String)
    (hrs : h.requestShutdown = none) :
    dispatchTrace mid h parse (stopDaemonMethod mid) params =
      [Event.respond Wire.stopDaemonAck, Event.schedule stopDaemonDelayMs] ∧
    fireScheduled h = [] ∧
    (∀ e, Event.respond (Wire.err e) ∉ stopDaemonTimeline mid h parse params) ∧
    Event.invokeShutdown ∉ stopDaemonTimeline mid h parse params := by
  have hsp : stopDaemonMethod mid ≠ spawnMethod mid :=
    append_right_ne mid (by decide)
  have hst : stopDaemonMethod mid ≠ stopMethod mid :=
    append_right_ne mid (by decide)
  have h1 : dispatchTrace mid h parse (stopDaemonMethod mid) params =
      [Event.respond Wire.stopDaemonAck, Event.schedule stopDaemonDelayMs] := by
    simp [dispatchTrace, rpcBody, hsp, hst]
  have h2 : fireScheduled h = [] := by
    simp [fireScheduled, hrs]
  refine ⟨h1, h2, ?_, ?_⟩
  · intro e
    simp [stopDaemonTimeline, h1, h2]
  · simp [stopDaemonTimeline, h1, h2]

/-- Claim C10 witness: a concrete stop-daemon request with no bound
shutdown handler is acknowledged, schedules the closure, and its timeline
carries no error response and no shutdown invocation. -/
theorem stop_daemon_unbound_silent_witness :
    handlersNone.requestShutdown = none ∧
    (dispatchTrace "m1" handlersNone parseDirEx (stopDaemonMethod "m1") "x" =
        [Event.respond Wire.stopDaemonAck, Event.schedule stopDaemonDelayMs] ∧
      fireScheduled handlersNone = [] ∧
      (∀ e, Event.respond (Wire.err e) ∉
          stopDaemonTimeline "m1" handlersNone parseDirEx "x") ∧
      Event.invokeShutdown ∉ stopDaemonTimeline "m1" handlersNone parseDirEx "x") :=
  ⟨rfl,
   stop_daemon_unbound_silent "m1" handlersNone parseDirEx "x" rfl⟩

/-- A live interval timer created by startKeepAlive: its allocation
number, its period in milliseconds, and the machine id whose liveness
payload its ticks emit. -/
structure HeartbeatTimer where
  timerId : Nat
  periodMs : Nat
  machineId : String
deriving DecidableEq

/-- The machine-alive payload a heartbeat tick emits: the machine id and
the current time. -/
def machineAlivePayload (t : HeartbeatTimer) (now : Nat) : String × Nat :=
  (t.machineId, now)

/-- Period of the keep-alive interval, 20 seconds. -/
def keepAlivePeriodMs : Nat := 20000

/-- Keep-alive bookkeeping: nextId numbers setInterval allocations,
active is every interval allocated and not yet cleared, and
keepAliveInterval is the this.keepAliveInterval field of the client. -/
structure KAState where
  nextId : Nat
  active : List HeartbeatTimer
  keepAliveInterval : Option HeartbeatTimer
deriving DecidableEq

/-- stopKeepAlive (apiMachine.ts lines 353-359): when an interval is
stored, clear it and null the field; otherwise do nothing. -/
def stopKeepAlive (st : KAState) : KAState :=
  match st.keepAliveInterval with
  | some t => { st with active := st.active.erase t, keepAliveInterval := none }
  | none => st

/-- startKeepAlive (apiMachine.ts lines 338-351): stop any prior timer
first, then allocate a fresh 20 second interval emitting the machine-alive
payload and store it. -/
def startKeepAlive (mid : String) (st : KAState) : KAState :=
  let st1 := stopKeepAlive st
  let t : HeartbeatTimer := ⟨st1.nextId, keepAlivePeriodMs, mid⟩
  { nextId := st1.nextId + 1, active := t :: st1.active, keepAliveInterval := some t }

/-- Lifecycle events that touch the keep-alive timer: the connect handler
calls startKeepAlive, and the disconnect handler and shutdown() call
stopKeepAlive. -/
inductive KAEvent where
  | connectEv : KAEvent
  | disconnectEv : KAEvent
  | shutdownEv : KAEvent
deriving DecidableEq

/-- Effect of one lifecycle event on the keep-alive state. -/
def kaStep (mid : String) (st : KAState) : KAEvent → KAState
  | .connectEv => startKeepAlive mid st
  | .disconnectEv => stopKeepAlive st
  | .shutdownEv => stopKeepAlive st

/-- Effect of a sequence of lifecycle events. -/
def kaRun (mid : String) (st : KAState) (evs : List KAEvent) : KAState :=
  evs.foldl (kaStep mid) st

/-- Keep-alive state before the first connect: no timer allocated. -/
def kaInit : KAState := ⟨0, [], none⟩

/-- The keep-alive invariant: the live timers are exactly the stored
interval, so at most one timer is ever active. -/
def kaInv (st : KAState) : Prop :=
  match st.keepAliveInterval with
  | some t => st.active = [t]
  | none => st.active = []

/-- Stopping the keep-alive leaves no live timer. -/
theorem stopKeepAlive_active_nil (st : KAState) (hinv : kaInv st) :
    (stopKeepAlive st).active = [] := by
  unfold kaInv at hinv
  unfold stopKeepAlive
  match h : st.keepAliveInterval with
  | some t =>
      rw [h] at hinv
      simp [hinv]
  | none =>
      rw [h] at hinv
      simp [hinv]

/-- Stopping the keep-alive preserves the invariant. -/
theorem stopKeepAlive_inv (st : KAState) (hinv : kaInv st) :
    kaInv (stopKeepAlive st) := by
  have hnil := stopKeepAlive_active_nil st hinv
  unfold kaInv
  unfold stopKeepAlive at hnil ⊢
  match h : st.keepAliveInterval with
  | some t =>
      rw [h] at hnil
      simp_all
  | none =>
      rw [h] at hnil
      unfold kaInv at hinv
      rw [h] at hinv
      simp_all

/-- Starting the keep-alive from an invariant state leaves exactly the
fresh 20 second timer live. -/
theorem startKeepAlive_active (mid : String) (st : KAState) (hinv : kaInv st) :
    (startKeepAlive mid st).active =
      [⟨(stopKeepAlive st).nextId, keepAlivePeriodMs, mid⟩] := by
  have hnil := stopKeepAlive_active_nil st hinv
  simp [startKeepAlive, hnil]

/-- Starting the keep-alive preserves the invariant. -/
theorem startKeepAlive_inv (mid : String) (st : KAState) (hinv : kaInv st) :
    kaInv (startKeepAlive mid st) := by
  have hnil := stopKeepAlive_active_nil st hinv
  simp [kaInv, startKeepAlive, hnil]

/-- Every lifecycle event preserves the invariant. -/
theorem kaStep_inv (mid : String) (st : KAState) (e : KAEvent) (hinv : kaInv st) :
    kaInv (kaStep mid st e) := by
  cases e with
  | connectEv => exact startKeepAlive_inv mid st hinv
  | disconnectEv => exact stopKeepAlive_inv st hinv
  | shutdownEv => exact stopKeepAlive_inv st hinv

/-- Every event sequence preserves the invariant. -/
theorem kaRun_inv (mid : String) (evs : List KAEvent) (st : KAState)
    (hinv : kaInv st) : kaInv (kaRun mid st evs) := by
  induction evs generalizing st with
  | nil => exact hinv
  | cons e rest ih => exact ih (kaStep mid st e) (kaStep_inv mid st e hinv)

/-- Running events over concatenated lists composes. -/
theorem kaRun_append (mid : String) (st : KAState) (a b : List KAEvent) :
    kaRun mid st (a ++ b) = kaRun mid (kaRun mid st a) b := by
  simp [kaRun, List.foldl_append]

/-- After one or more consecutive connect events from any invariant
state, exactly the latest 20 second timer for the local machine is
live. -/
theorem connect_run_shape (mid : String) (N : Nat) :
    ∀ st : KAState, kaInv st → 1 ≤ N →
      ∃ i, (kaRun mid st (List.replicate N KAEvent.connectEv)).active =
        [⟨i, keepAlivePeriodMs, mid⟩] := by
  induction N with
  | zero =>
      intro st _ hN
      omega
  | succ k ih =>
      intro st hinv _
      rw [List.replicate_succ]
      have hstep :
          kaRun mid st (KAEvent.connectEv :: List.replicate k KAEvent.connectEv) =
            kaRun mid (kaStep mid st KAEvent.connectEv)
              (List.replicate k KAEvent.connectEv) := rfl
      rw [hstep]
      rcases Nat.eq_zero_or_pos k with hk | hk
      · subst hk
        refine ⟨(stopKeepAlive st).nextId, ?_⟩
        simpa [kaRun] using startKeepAlive_active mid st hinv
      · exact ih (kaStep mid st KAEvent.connectEv)
          (kaStep_inv mid st KAEvent.connectEv hinv) hk

/-- Claim C9: after any history of lifecycle events followed by one or
more consecutive connect events, exactly one heartbeat timer is active,
and it is a 20 second interval emitting the machine-alive payload of the
local machine id; after the same history followed by a disconnect or a
shutdown, no heartbeat timer is active. -/
theorem heartbeat_lifecycle (mid : String) (evs : List KAEvent) (N : Nat)
    (hN : 1 ≤ N) :
    ((kaRun mid kaInit (evs ++ List.replicate N KAEvent.connectEv)).active.length = 1 ∧
      ∀ t ∈ (kaRun mid kaInit (evs ++ List.replicate N KAEvent.connectEv)).active,
        t.periodMs = keepAlivePeriodMs ∧ keepAlivePeriodMs = 20000 ∧
        t.machineId = mid ∧ ∀ now, machineAlivePayload t now = (mid, now)) ∧
    (kaRun mid kaInit (evs ++ [KAEvent.disconnectEv])).active = [] ∧
    (kaRun mid kaInit (evs ++ [KAEvent.shutdownEv])).active = [] := by
  have hinv0 : kaInv kaInit := by simp [kaInv, kaInit]
  have hinv1 : kaInv (kaRun mid kaInit evs) := kaRun_inv mid evs kaInit hinv0
  refine ⟨?_, ?_, ?_⟩
  · rw [kaRun_append]
    obtain ⟨i, hi⟩ := connect_run_shape mid N (kaRun mid kaInit evs) hinv1 hN
    rw [hi]
    refine ⟨rfl, ?_⟩
    intro t ht
    simp at ht
    subst ht
    exact ⟨rfl, rfl, rfl, fun now => rfl⟩
  · rw [kaRun_append]
    exact stopKeepAlive_active_nil (kaRun mid kaInit evs) hinv1
  · rw [kaRun_append]
    exact stopKeepAlive_active_nil (kaRun mid kaInit evs) hinv1

/-- Claim C9 witness: after a concrete history of connect, disconnect and
two more connect events, exactly one 20 second timer is active, and one
further disconnect or shutdown leaves none. -/
theorem heartbeat_lifecycle_witness :
    (1 : Nat) ≤ 2 ∧
    (((kaRun "m1" kaInit
          ([KAEvent.connectEv, KAEvent.disconnectEv] ++
            List.replicate 2 KAEvent.connectEv)).active.length = 1 ∧
       ∀ t ∈ (kaRun "m1" kaInit
          ([KAEvent.connectEv, KAEvent.disconnectEv] ++
            List.replicate 2 KAEvent.connectEv)).active,
          t.periodMs = keepAlivePeriodMs ∧ keepAlivePeriodMs = 20000 ∧
          t.machineId = "m1" ∧ ∀ now, machineAlivePayload t now = ("m1", now)) ∧
     (kaRun "m1" kaInit
        ([KAEvent.connectEv, KAEvent.disconnectEv] ++ [KAEvent.disconnectEv])).active = [] ∧
     (kaRun "m1" kaInit
        ([KAEvent.connectEv, KAEvent.disconnectEv] ++ [KAEvent.shutdownEv])).active = []) :=
  ⟨by decide,
   heartbeat_lifecycle "m1" [KAEvent.connectEv, KAEvent.disconnectEv] 2 (by decide)⟩

end HappyMachine
